import Mathlib

/-!
# Verification of the price-service breaker/timeout/dispatch engine

Shallow embedding of `src/priceservice/src/app.service.ts`: the `AppService`
class that wraps outbound GET requests to the database service in a circuit
breaker (cockatiel `ConsecutiveBreaker` / `SamplingBreaker`) and a timeout
policy, classifies failures into `CB_OPEN` / `TIMEOUT` / `ERROR` log events,
and posts each event to an external error monitor.

Time is modelled in milliseconds as `Nat`.  Each invocation of
`handleRequest` is a pure step: it takes the current breaker state, the call
time, and the behaviour of the downstream HTTP GET (how long it takes and
whether its promise resolves or rejects), and returns the updated breaker
state together with the value the promise resolves with, the console output,
and the events handed to the monitor.
-/

namespace PriceService

/-- Modelled from the spec: the `ConfigHandlerService`
(`src/config-handler/config-handler.service.ts`, not under `src/`).  Fields
are the ones `app.service.ts` reads plus the config format documented in the
repository README: `breaker : string; timeoutDuration; resetDuration;
monitorDuration; threshold; minimumRequests; consecutiveFailures`.  The
failure-rate threshold is a rational in (0,1]. -/
structure ConfigHandlerService where
  breakerType : String
  timeoutDuration : Nat
  resetDuration : Nat
  monitorDuration : Nat
  threshold : ℚ
  minimumRequests : Nat
  consecutiveFailures : Nat
  monitorUrl : String
deriving DecidableEq, Repr

/-- A timestamped success/failure record kept by the sampling policy. -/
structure OutcomeRecord where
  time : Nat
  success : Bool
deriving DecidableEq, Repr

/-- Modelled from the spec: the two cockatiel breaker policies
(`ConsecutiveBreaker`, `SamplingBreaker`; library code, not under `src/`).
The consecutive variant keeps a running count of consecutive failures; the
sampling variant keeps the outcome records of the trailing window. -/
inductive BreakerPolicy where
  | consecutive (threshold : Nat) (count : Nat)
  | sampling (threshold : ℚ) (duration : Nat) (minimumRps : Nat)
      (records : List OutcomeRecord)
deriving DecidableEq, Repr

/-- The records of the trailing window: strictly younger than `duration`. -/
def recordsWithin (duration now : Nat) (records : List OutcomeRecord) :
    List OutcomeRecord :=
  records.filter fun r => now - r.time < duration

/-- Number of failure records in a list. -/
def failureCount (records : List OutcomeRecord) : Nat :=
  (records.filter fun r => !r.success).length

/-- Modelled from the spec: record a successful outcome.  The consecutive
count resets to 0 on any success; the sampling window appends a record. -/
def BreakerPolicy.recordSuccess : BreakerPolicy → Nat → BreakerPolicy
  | .consecutive t _, _ => .consecutive t 0
  | .sampling t d m recs, now => .sampling t d m (recs ++ [⟨now, true⟩])

/-- Modelled from the spec: record a failed outcome. -/
def BreakerPolicy.recordFailure : BreakerPolicy → Nat → BreakerPolicy
  | .consecutive t c, _ => .consecutive t (c + 1)
  | .sampling t d m recs, now => .sampling t d m (recs ++ [⟨now, false⟩])

/-- Modelled from the spec: whether the policy demands opening the circuit.
Consecutive: the count has reached the threshold.  Sampling: the trailing
window holds at least `minimumRps` records and the failure ratio
(failures / total) is at least the threshold. -/
def BreakerPolicy.shouldOpen : BreakerPolicy → Nat → Bool
  | .consecutive t c, _ => decide (t ≤ c)
  | .sampling t d m recs, now =>
      let recent := recordsWithin d now recs
      decide (m ≤ recent.length) &&
        decide (t ≤ (failureCount recent : ℚ) / (recent.length : ℚ))

/-- Modelled from the spec: clearing all policy state (on a successful
half-open probe). -/
def BreakerPolicy.resetPolicy : BreakerPolicy → BreakerPolicy
  | .consecutive t _ => .consecutive t 0
  | .sampling t d m _ => .sampling t d m []

/-- Modelled from the spec: the circuit-breaker state machine states.
`opened` remembers when the circuit opened, so that the reset timer of
`resetDuration` can be checked against the current time. -/
inductive CircuitState where
  | closed
  | opened (openedAt : Nat)
  | halfOpen
deriving DecidableEq, Repr

/-- A cockatiel circuit-breaker instance as configured by `setupBreaker`:
the reset duration captured at construction, the state-machine state, and
the policy bookkeeping. -/
structure Breaker where
  resetDuration : Nat
  circuit : CircuitState
  policy : BreakerPolicy
deriving DecidableEq, Repr

/-- `AppService.setupBreaker` (`app.service.ts` lines 32-58): build a fresh
breaker from the current configuration.  `breakerType == 'consecutive'`
selects the `ConsecutiveBreaker(consecutiveFailures)`; anything else selects
the `SamplingBreaker({threshold, duration: monitorDuration,
minimumRps: minimumRequests})`.  Both start closed with empty policy state. -/
def setupBreaker (cfg : ConfigHandlerService) : Breaker :=
  if cfg.breakerType == "consecutive" then
    ⟨cfg.resetDuration, .closed, .consecutive cfg.consecutiveFailures 0⟩
  else
    ⟨cfg.resetDuration, .closed,
      .sampling cfg.threshold cfg.monitorDuration cfg.minimumRequests []⟩

/-- The ways the HTTP GET promise of `sendRequest` can behave: resolve with
a response, reject, or never settle. -/
structure HttpResponse where
  status : Nat
  data : String
deriving DecidableEq, Repr

inductive HttpResult where
  | resolved (resp : HttpResponse)
  | rejected (msg : String)
deriving DecidableEq, Repr

/-- Behaviour of one downstream GET: it replies (resolves or rejects) after
`latency` milliseconds, or it hangs forever. -/
inductive DownstreamBehavior where
  | replies (latency : Nat) (result : HttpResult)
  | hangs
deriving DecidableEq, Repr

/-- `AppService.sendRequest` (`app.service.ts` lines 180-190): await the GET;
when the promise resolves, log to the console if the status is 200, and
return `send.data`; when it rejects, re-reject with the error.  Returns the
console lines and the settled result. -/
def sendRequest (url : String) (r : HttpResult) :
    List String × Except String String :=
  match r with
  | .resolved resp =>
      (if resp.status == 200 then ["Request to " ++ url ++ " was successful"]
       else [],
       .ok resp.data)
  | .rejected msg => ([], .error msg)

/-- Outcome of `handleTimeout`: the value it resolves with, or the rejection
it propagates — either cockatiel's `TaskCancelledError` from the aggressive
timeout, or the underlying request error. -/
inductive TimeoutOutcome where
  | ok (data : String)
  | taskCancelled
  | errored (msg : String)
deriving DecidableEq, Repr

def TimeoutOutcome.isOk : TimeoutOutcome → Bool
  | .ok _ => true
  | _ => false

/-- `AppService.handleTimeout` (`app.service.ts` lines 153-168): run
`sendRequest` under `Policy.timeout(timeoutDuration, Aggressive)`.  If the
GET settles strictly within the deadline its result or error passes through
unchanged; otherwise the timeout cancels the call and the outcome is
`TaskCancelledError`.  Returns the console lines of the completed request
and the outcome. -/
def handleTimeout (timeoutDuration : Nat) (url : String)
    (b : DownstreamBehavior) : List String × TimeoutOutcome :=
  match b with
  | .hangs => ([], .taskCancelled)
  | .replies latency r =>
      if latency < timeoutDuration then
        match sendRequest url r with
        | (console, .ok d) => (console, .ok d)
        | (console, .error m) => (console, .errored m)
      else ([], .taskCancelled)

/-- Result of `breaker.execute`: the resolved data, or the rejection — the
breaker's own `BrokenCircuitError`, or the propagated `TaskCancelledError`
or downstream error. -/
inductive ExecResult where
  | ok (data : String)
  | brokenCircuit
  | cancelled
  | downstreamErr (msg : String)
deriving DecidableEq, Repr

/-- Modelled from the spec: the half-open probe of the cockatiel breaker.
A successful probe closes the circuit and clears the policy state; a failing
probe reopens the circuit and restarts the reset timer. -/
def Breaker.probe (b : Breaker) (now : Nat) (inner : TimeoutOutcome) :
    Breaker × ExecResult × Bool :=
  match inner with
  | .ok d => (⟨b.resetDuration, .closed, b.policy.resetPolicy⟩, .ok d, true)
  | .taskCancelled => (⟨b.resetDuration, .opened now, b.policy⟩, .cancelled, true)
  | .errored m =>
      (⟨b.resetDuration, .opened now, b.policy⟩, .downstreamErr m, true)

/-- Modelled from the spec: `breaker.execute(call)` of the cockatiel
circuit breaker.  While open and the reset timer has not elapsed, reject
with `BrokenCircuitError` without invoking the call; once the timer elapsed
(or in half-open state) the call is the single probe; while closed the call
runs, its outcome is recorded, and a failure that makes the policy demand
opening opens the circuit at the current time.  The returned `Bool` records
whether the wrapped call (the downstream GET) was invoked. -/
def Breaker.execute (b : Breaker) (now : Nat) (inner : TimeoutOutcome) :
    Breaker × ExecResult × Bool :=
  match b.circuit with
  | .opened openedAt =>
      if now < openedAt + b.resetDuration then (b, .brokenCircuit, false)
      else b.probe now inner
  | .halfOpen => b.probe now inner
  | .closed =>
      match inner with
      | .ok d =>
          (⟨b.resetDuration, .closed, b.policy.recordSuccess now⟩, .ok d, true)
      | .taskCancelled =>
          let p := b.policy.recordFailure now
          (⟨b.resetDuration,
            if p.shouldOpen now then .opened now else .closed, p⟩,
           .cancelled, true)
      | .errored m =>
          let p := b.policy.recordFailure now
          (⟨b.resetDuration,
            if p.shouldOpen now then .opened now else .closed, p⟩,
           .downstreamErr m, true)

/-- Whether the breaker rejects a call arriving at time `now` outright
(open, reset timer not yet elapsed). -/
def Breaker.rejectsAt (b : Breaker) (now : Nat) : Bool :=
  match b.circuit with
  | .opened openedAt => decide (now < openedAt + b.resetDuration)
  | _ => false

/-- The log types of the `logging-format` package used by `app.service.ts`:
`LogType.CB_OPEN`, `LogType.TIMEOUT`, `LogType.ERROR`. -/
inductive LogType where
  | CB_OPEN
  | TIMEOUT
  | ERROR
deriving DecidableEq, Repr

/-- The `data` payload of each log variant, as built by `handleRequest`:
`{openTime, failedResponses}` for `CB_OPEN`, `{timeoutDuration}` for
`TIMEOUT`, `{expected, result}` for `ERROR`. -/
inductive LogData where
  | cbOpen (openTime : Nat) (failedResponses : Nat)
  | timeoutData (timeoutDuration : Nat)
  | errorData (expected : String) (result : String)
deriving DecidableEq, Repr

/-- A `LogMessageFormat` object as built in `handleRequest` (lines 101-140):
exactly the fields `{type, time, message, source, detector, data}`. -/
structure LogMessageFormat where
  type : LogType
  time : Nat
  message : String
  source : String
  detector : String
  data : LogData
deriving DecidableEq, Repr

/-- What `handleRequest` resolves with: the success object
`{type: 'Success', message, result}` or the failure log object returned by
`sendError`. -/
inductive HandleResult where
  | success (message : String) (result : String)
  | failureLog (log : LogMessageFormat)
deriving DecidableEq, Repr

def HandleResult.isCBOpen : HandleResult → Bool
  | .failureLog log => log.type == .CB_OPEN
  | _ => false

/-- The log type of a failure result, `none` on success. -/
def HandleResult.failureType : HandleResult → Option LogType
  | .success _ _ => none
  | .failureLog log => some log.type

/-- The `CB_OPEN` log object built in `handleRequest` lines 103-114 for a
`BrokenCircuitError`. -/
def cbOpenLog (cfg : ConfigHandlerService) (now : Nat) : LogMessageFormat :=
  ⟨.CB_OPEN, now, "CircuitBreaker is open.", "Database Service",
    "Price Service", .cbOpen cfg.resetDuration cfg.consecutiveFailures⟩

/-- The `TIMEOUT` log object built in `handleRequest` lines 115-125 for a
`TaskCancelledError`. -/
def timeoutLog (cfg : ConfigHandlerService) (now : Nat) : LogMessageFormat :=
  ⟨.TIMEOUT, now, "Request was timed out.", "Database Service",
    "Price Service", .timeoutData cfg.timeoutDuration⟩

/-- The `ERROR` log object built in `handleRequest` lines 126-138 for any
other error, carrying the error message. -/
def errorLog (cfg : ConfigHandlerService) (now : Nat) (msg : String) :
    LogMessageFormat :=
  ⟨.ERROR, now, "Service is not available.", "Database Service",
    "Price Service", .errorData "Not an error" msg⟩

/-- `AppService.sendError` (`app.service.ts` lines 66-78): POST the log to
the monitor and subscribe with a success and an error console callback; the
function returns its argument unchanged either way.  `reachable` says
whether the monitor answers the POST; it decides only which line is printed. -/
def sendError (reachable : Bool) (monitorUrl : String)
    (log : LogMessageFormat) : String × LogMessageFormat :=
  if reachable then
    ("Report sent to monitor at " ++ monitorUrl, log)
  else
    ("Monitor at " ++ monitorUrl ++ " not available", log)

/-- Everything one `handleRequest` invocation produces: the updated breaker,
the value the returned promise resolves with, whether the downstream GET was
invoked, the events handed to the monitor (POSTed by `sendError`), and the
console output. -/
structure StepResult where
  breaker : Breaker
  value : HandleResult
  downstreamInvoked : Bool
  monitorPosts : List LogMessageFormat
  console : List String
deriving DecidableEq, Repr

/-- `AppService.handleRequest` (`app.service.ts` lines 92-142): execute
`handleTimeout` through the breaker; on success resolve with
`{type: 'Success', message, result: data}`; on rejection classify
`BrokenCircuitError` as a `CB_OPEN` log, `TaskCancelledError` as a `TIMEOUT`
log, and anything else as an `ERROR` log, and resolve with `sendError(log)`. -/
def handleRequest (cfg : ConfigHandlerService) (st : Breaker) (now : Nat)
    (url : String) (b : DownstreamBehavior) (monitorReachable : Bool) :
    StepResult :=
  let inner := handleTimeout cfg.timeoutDuration url b
  let step := st.execute now inner.2
  let innerConsole := if step.2.2 then inner.1 else []
  match step.2.1 with
  | .ok d =>
      ⟨step.1, .success "Request to database was successful" d, step.2.2,
        [], innerConsole⟩
  | .brokenCircuit =>
      let log := cbOpenLog cfg now
      let sent := sendError monitorReachable cfg.monitorUrl log
      ⟨step.1, .failureLog sent.2, step.2.2, [log], innerConsole ++ [sent.1]⟩
  | .cancelled =>
      let log := timeoutLog cfg now
      let sent := sendError monitorReachable cfg.monitorUrl log
      ⟨step.1, .failureLog sent.2, step.2.2, [log], innerConsole ++ [sent.1]⟩
  | .downstreamErr m =>
      let log := errorLog cfg now m
      let sent := sendError monitorReachable cfg.monitorUrl log
      ⟨step.1, .failureLog sent.2, step.2.2, [log], innerConsole ++ [sent.1]⟩

/-- A sequence of `handleRequest` invocations, each given its call time and
downstream behaviour; returns the final breaker state. -/
def runCalls (cfg : ConfigHandlerService) (st : Breaker)
    (calls : List (Nat × DownstreamBehavior)) (url : String)
    (monitorReachable : Bool) : Breaker :=
  match calls with
  | [] => st
  | p :: rest =>
      runCalls cfg (handleRequest cfg st p.1 url p.2 monitorReachable).breaker
        rest url monitorReachable

/-- The service-level state the configuration endpoint acts on: the current
configuration and the breaker instance built from it. -/
structure ServiceState where
  config : ConfigHandlerService
  breaker : Breaker
deriving DecidableEq, Repr

/-- Modelled from the spec: the configuration reload path
(`config-handler.controller.ts`, not under `src/`).  Per the source comment
on `setupBreaker` ("called in constructor and in config-handler.controller.ts")
and the spec's design note that "the original behavior rebuilds
unconditionally", every accepted reload publishes the new configuration and
invokes `setupBreaker`, discarding the previous breaker instance — whether
or not the new configuration differs from the old one. -/
def reloadConfig (st : ServiceState) (newCfg : ConfigHandlerService) :
    ServiceState :=
  { config := newCfg, breaker := setupBreaker newCfg }

/-- Bool check that a log object is one of the three failure events in the
shape `handleRequest` builds: a `CB_OPEN`, `TIMEOUT` or `ERROR` type, the
call time, and the fixed source/detector strings. -/
def eventWellFormed (now : Nat) (log : LogMessageFormat) : Bool :=
  (log.type == .CB_OPEN || log.type == .TIMEOUT || log.type == .ERROR) &&
    log.time == now && log.source == "Database Service" &&
    log.detector == "Price Service"

/-- A concrete consecutive-breaker configuration (threshold 2, reset 100ms,
timeout 50ms) used to evaluate the theorems on closed inputs. -/
def wCfg : ConfigHandlerService :=
  ⟨"consecutive", 50, 100, 1000, 1 / 2, 10, 2, "m"⟩

/-- A concrete sampling-breaker configuration (`breakerType = 'sampling'`,
`consecutiveFailures = 3` left over in the config) used to evaluate the
theorems on closed inputs. -/
def sCfg : ConfigHandlerService :=
  ⟨"sampling", 50, 100, 1000, 1 / 2, 10, 3, "m"⟩

/-- A sampling breaker whose circuit opened at time 0, used to evaluate the
theorems on closed inputs. -/
def wOpenSamplingBreaker : Breaker :=
  ⟨100, .opened 0, .sampling (1 / 2) 1000 10 []⟩

/-! ## Structural lemmas about one `handleRequest` step -/

@[simp] theorem sendError_snd (reachable : Bool) (monitorUrl : String)
    (log : LogMessageFormat) :
    (sendError reachable monitorUrl log).2 = log := by
  cases reachable <;> simp [sendError]

theorem execute_rejected (b : Breaker) (now : Nat) (inner : TimeoutOutcome)
    (h : b.rejectsAt now = true) :
    b.execute now inner = (b, .brokenCircuit, false) := by
  obtain ⟨rd, circ, p⟩ := b
  cases circ with
  | closed => simp [Breaker.rejectsAt] at h
  | halfOpen => simp [Breaker.rejectsAt] at h
  | opened openedAt =>
      simp only [Breaker.rejectsAt, decide_eq_true_eq] at h
      simp [Breaker.execute, h]

theorem handleRequest_rejected (cfg : ConfigHandlerService) (st : Breaker)
    (now : Nat) (url : String) (b : DownstreamBehavior) (mon : Bool)
    (h : st.rejectsAt now = true) :
    handleRequest cfg st now url b mon =
      ⟨st, .failureLog (cbOpenLog cfg now), false, [cbOpenLog cfg now],
        [(sendError mon cfg.monitorUrl (cbOpenLog cfg now)).1]⟩ := by
  cases mon <;> simp [handleRequest, execute_rejected st now _ h, sendError]

theorem handleRequest_breaker_closed_fail (cfg : ConfigHandlerService)
    (rd : Nat) (p : BreakerPolicy) (now : Nat) (url : String)
    (b : DownstreamBehavior) (mon : Bool)
    (hf : (handleTimeout cfg.timeoutDuration url b).2.isOk = false) :
    (handleRequest cfg ⟨rd, .closed, p⟩ now url b mon).breaker =
      ⟨rd,
       if (p.recordFailure now).shouldOpen now then .opened now else .closed,
       p.recordFailure now⟩ := by
  rcases h2 : (handleTimeout cfg.timeoutDuration url b).2 with d | _ | m
  · rw [h2] at hf; simp [TimeoutOutcome.isOk] at hf
  · simp [handleRequest, Breaker.execute, h2]
  · simp [handleRequest, Breaker.execute, h2]

theorem handleRequest_breaker_closed_ok (cfg : ConfigHandlerService)
    (rd : Nat) (p : BreakerPolicy) (now : Nat) (url : String)
    (b : DownstreamBehavior) (mon : Bool) (d : String)
    (h2 : (handleTimeout cfg.timeoutDuration url b).2 = .ok d) :
    (handleRequest cfg ⟨rd, .closed, p⟩ now url b mon).breaker =
      ⟨rd, .closed, p.recordSuccess now⟩ := by
  simp [handleRequest, Breaker.execute, h2]

@[simp] theorem recordFailure_consecutive (t c now : Nat) :
    BreakerPolicy.recordFailure (.consecutive t c) now =
      .consecutive t (c + 1) := rfl

@[simp] theorem recordSuccess_consecutive (t c now : Nat) :
    BreakerPolicy.recordSuccess (.consecutive t c) now = .consecutive t 0 :=
  rfl

@[simp] theorem shouldOpen_consecutive (t c now : Nat) :
    BreakerPolicy.shouldOpen (.consecutive t c) now = decide (t ≤ c) := rfl

/-- Running a sequence of calls that all fail downstream, through a closed
consecutive breaker whose count `c` is `calls.length` short of the threshold
`N`, ends with the circuit open since the last call's time and the count at
the threshold. -/
theorem runCalls_consecutive_opens (cfg : ConfigHandlerService)
    (url : String) (mon : Bool) (N : Nat)
    (calls : List (Nat × DownstreamBehavior)) :
    ∀ (c rd : Nat),
      (∀ p ∈ calls,
        (handleTimeout cfg.timeoutDuration url p.2).2.isOk = false) →
      c + calls.length = N →
      ∀ tl bl, calls.getLast? = some (tl, bl) →
      runCalls cfg ⟨rd, .closed, .consecutive N c⟩ calls url mon =
        ⟨rd, .opened tl, .consecutive N N⟩ := by
  induction calls with
  | nil => intro c rd _ _ tl bl hlast; simp at hlast
  | cons p rest ih =>
      intro c rd hfail hlen tl bl hlast
      have hfp : (handleTimeout cfg.timeoutDuration url p.2).2.isOk = false :=
        hfail p (List.mem_cons_self p rest)
      simp only [runCalls]
      rw [handleRequest_breaker_closed_fail cfg rd _ p.1 url p.2 mon hfp]
      cases rest with
      | nil =>
          have hc : c + 1 = N := by simpa using hlen
          have hpl : p = (tl, bl) := by simpa using hlast
          have hle : N ≤ c + 1 := hc.ge
          simp only [recordFailure_consecutive, shouldOpen_consecutive,
            decide_eq_true_eq, if_pos hle, runCalls, hc, hpl]
          simp
      | cons q rest' =>
          have hlt : ¬ (N ≤ c + 1) := by
            simp only [List.length_cons] at hlen
            omega
          simp only [recordFailure_consecutive, shouldOpen_consecutive,
            decide_eq_true_eq, if_neg hlt]
          refine ih (c + 1) rd
            (fun x hx => hfail x (List.mem_cons_of_mem p hx)) ?_ tl bl ?_
          · simp only [List.length_cons] at hlen ⊢
            omega
          · rw [← hlast, List.getLast?_cons_cons]

/-! ## Claim theorems -/

/-- Claim C1: with `breakerType = 'consecutive'` and
`consecutiveFailureThreshold = N`, after any sequence of `N` calls through
`handleRequest` that all fail downstream, a further call arriving before the
reset timer elapses is rejected with a `CB_OPEN` (`BreakerOpen`) failure and
the downstream caller is not invoked for that call; and any successful call
through a closed consecutive breaker resets the consecutive-failure count
to 0. -/
theorem consecutive_breaker_opens_after_threshold_failures
    (cfg : ConfigHandlerService) (url : String) (mon : Bool)
    (hkind : cfg.breakerType = "consecutive")
    (calls : List (Nat × DownstreamBehavior))
    (hlen : calls.length = cfg.consecutiveFailures)
    (hfail : ∀ p ∈ calls,
      (handleTimeout cfg.timeoutDuration url p.2).2.isOk = false)
    (tl : Nat) (bl : DownstreamBehavior)
    (hlast : calls.getLast? = some (tl, bl))
    (t : Nat) (ht : t < tl + cfg.resetDuration) (b : DownstreamBehavior) :
    ((handleRequest cfg (runCalls cfg (setupBreaker cfg) calls url mon)
        t url b mon).value.isCBOpen = true ∧
     (handleRequest cfg (runCalls cfg (setupBreaker cfg) calls url mon)
        t url b mon).downstreamInvoked = false) ∧
    (∀ (rd now c : Nat) (b2 : DownstreamBehavior) (d : String),
      (handleTimeout cfg.timeoutDuration url b2).2 = .ok d →
      (handleRequest cfg
          ⟨rd, .closed, .consecutive cfg.consecutiveFailures c⟩
          now url b2 mon).breaker.policy =
        .consecutive cfg.consecutiveFailures 0) := by
  constructor
  · have hsetup : setupBreaker cfg =
        ⟨cfg.resetDuration, .closed,
          .consecutive cfg.consecutiveFailures 0⟩ := by
      simp [setupBreaker, hkind]
    have hrun := runCalls_consecutive_opens cfg url mon
      cfg.consecutiveFailures calls 0 cfg.resetDuration hfail
      (by simpa using hlen) tl bl hlast
    rw [hsetup, hrun]
    have hrej : Breaker.rejectsAt
        ⟨cfg.resetDuration, .opened tl,
          .consecutive cfg.consecutiveFailures cfg.consecutiveFailures⟩
        t = true := by
      simp only [Breaker.rejectsAt, decide_eq_true_eq]
      exact ht
    rw [handleRequest_rejected cfg _ t url b mon hrej]
    simp [HandleResult.isCBOpen, cbOpenLog]
  · intro rd now c b2 d h2
    rw [handleRequest_breaker_closed_ok cfg rd _ now url b2 mon d h2]
    simp

/-- Witness for C1: threshold 2, two hanging (hence timed-out) calls at
times 0 and 1, then a call at time 50, inside the 100ms reset window, is
rejected with `CB_OPEN` without invoking the downstream. -/
theorem consecutive_breaker_opens_after_threshold_failures_witness :
    (handleRequest wCfg
        (runCalls wCfg (setupBreaker wCfg) [(0, .hangs), (1, .hangs)] "u"
          true)
        50 "u" .hangs true).value.isCBOpen = true ∧
    (handleRequest wCfg
        (runCalls wCfg (setupBreaker wCfg) [(0, .hangs), (1, .hangs)] "u"
          true)
        50 "u" .hangs true).downstreamInvoked = false :=
  (consecutive_breaker_opens_after_threshold_failures wCfg "u" true rfl
    [(0, .hangs), (1, .hangs)] (by decide) (by decide) 1 .hangs rfl
    50 (by decide) .hangs).1

/-- Claim C2: every failed `handleRequest` invocation is classified into
exactly one of the three kinds — `BrokenCircuitError` as `CB_OPEN` (the
breaker rejected the call, downstream not invoked), `TaskCancelledError` as
`TIMEOUT`, any other error as `ERROR` — and the classification is a total
function of the breaker state and the downstream outcome, so `handleRequest`
always resolves with a structured result (success or exactly one classified
failure log) and never rejects. -/
theorem handleRequest_classifies_failures (cfg : ConfigHandlerService)
    (st : Breaker) (now : Nat) (url : String) (b : DownstreamBehavior)
    (mon : Bool) :
    (handleRequest cfg st now url b mon).value.failureType =
      (if st.rejectsAt now then some .CB_OPEN
       else
         match (handleTimeout cfg.timeoutDuration url b).2 with
         | .ok _ => none
         | .taskCancelled => some .TIMEOUT
         | .errored _ => some .ERROR) ∧
    (handleRequest cfg st now url b mon).downstreamInvoked =
      !(st.rejectsAt now) := by
  obtain ⟨rd, circ, p⟩ := st
  cases circ with
  | closed =>
      rcases h2 : (handleTimeout cfg.timeoutDuration url b).2 with d | _ | m <;>
        simp [handleRequest, Breaker.execute, Breaker.rejectsAt, h2,
          HandleResult.failureType, cbOpenLog, timeoutLog, errorLog]
  | halfOpen =>
      rcases h2 : (handleTimeout cfg.timeoutDuration url b).2 with d | _ | m <;>
        simp [handleRequest, Breaker.execute, Breaker.probe,
          Breaker.rejectsAt, h2, HandleResult.failureType, cbOpenLog,
          timeoutLog, errorLog]
  | opened openedAt =>
      by_cases hlt : now < openedAt + rd
      · simp [handleRequest, Breaker.execute, Breaker.rejectsAt, hlt,
          HandleResult.failureType, cbOpenLog]
      · rcases h2 : (handleTimeout cfg.timeoutDuration url b).2 with d | _ | m <;>
          simp [handleRequest, Breaker.execute, Breaker.probe,
            Breaker.rejectsAt, hlt, h2, HandleResult.failureType, cbOpenLog,
            timeoutLog, errorLog]

/-- Claim C3: the sampling policy opens only when the trailing window holds
at least `minimumSampleSize` records and the failure ratio is at least the
threshold; with `minimumSampleSize = 10` and threshold `1/2`, 4 failures and
6 successes inside the window do not open the circuit while 5 failures and 5
successes do, and an empty window never opens the circuit. -/
theorem sampling_policy_open_condition (d now : Nat) (hd : 0 < d)
    (thr : ℚ) (dd ms n : Nat) (recs : List OutcomeRecord) :
    (BreakerPolicy.shouldOpen (.sampling thr dd ms recs) n = true →
      ms ≤ (recordsWithin dd n recs).length ∧
      thr ≤ (failureCount (recordsWithin dd n recs) : ℚ) /
          ((recordsWithin dd n recs).length : ℚ)) ∧
    (1 ≤ ms → BreakerPolicy.shouldOpen (.sampling thr dd ms []) n = false) ∧
    BreakerPolicy.shouldOpen
      (.sampling (1 / 2) d 10
        (List.replicate 4 ⟨now, false⟩ ++ List.replicate 6 ⟨now, true⟩))
      now = false ∧
    BreakerPolicy.shouldOpen
      (.sampling (1 / 2) d 10
        (List.replicate 5 ⟨now, false⟩ ++ List.replicate 5 ⟨now, true⟩))
      now = true := by
  refine ⟨?_, ?_, ?_, ?_⟩
  · intro h
    simp only [BreakerPolicy.shouldOpen, Bool.and_eq_true,
      decide_eq_true_eq] at h
    exact h
  · intro hms
    have hms0 : ¬ (ms ≤ 0) := by omega
    simp [BreakerPolicy.shouldOpen, recordsWithin, hms0]
  · norm_num [BreakerPolicy.shouldOpen, recordsWithin, failureCount,
      List.replicate, Nat.sub_self, hd]
  · norm_num [BreakerPolicy.shouldOpen, recordsWithin, failureCount,
      List.replicate, Nat.sub_self, hd]

/-- Witness for C3: window 1000ms at time 0, ten records at time 0:
4 failures + 6 successes stay closed, 5 + 5 opens, and the empty window
stays closed. -/
theorem sampling_policy_open_condition_witness :
    BreakerPolicy.shouldOpen
      (.sampling (1 / 2) 1000 10
        (List.replicate 4 ⟨0, false⟩ ++ List.replicate 6 ⟨0, true⟩))
      0 = false ∧
    BreakerPolicy.shouldOpen
      (.sampling (1 / 2) 1000 10
        (List.replicate 5 ⟨0, false⟩ ++ List.replicate 5 ⟨0, true⟩))
      0 = true ∧
    BreakerPolicy.shouldOpen (.sampling (1 / 2) 1000 10 []) 0 = false := by
  have h := sampling_policy_open_condition 1000 0 (by decide) (1 / 2) 1000
    10 0 []
  exact ⟨h.2.2.1, h.2.2.2, h.2.1 (by decide)⟩

/-- Counterexample to C4: a reload that republishes the identical
configuration still rebuilds the breaker and resets its counters.  With the
consecutive threshold 2: one failed call brings the count to 1; reloading
the very same configuration resets the count to 0, so the next failed call
leaves the circuit closed — whereas without the reload the same second
failure opens the circuit at time 1. -/
theorem identical_reload_resets_counters_cex :
    (reloadConfig
        ⟨wCfg,
          (handleRequest wCfg (setupBreaker wCfg) 0 "u" .hangs
              true).breaker⟩
        wCfg).config = wCfg ∧
    (handleRequest wCfg (setupBreaker wCfg) 0 "u" .hangs true).breaker.policy
      = .consecutive 2 1 ∧
    (reloadConfig
        ⟨wCfg,
          (handleRequest wCfg (setupBreaker wCfg) 0 "u" .hangs
              true).breaker⟩
        wCfg).breaker.policy = .consecutive 2 0 ∧
    (handleRequest wCfg
        (reloadConfig
            ⟨wCfg,
              (handleRequest wCfg (setupBreaker wCfg) 0 "u" .hangs
                  true).breaker⟩
            wCfg).breaker
        1 "u" .hangs true).breaker.circuit = .closed ∧
    (handleRequest wCfg
        (handleRequest wCfg (setupBreaker wCfg) 0 "u" .hangs true).breaker
        1 "u" .hangs true).breaker.circuit = .opened 1 :=
  ⟨rfl, by decide, by decide, by decide, by decide⟩

/-- Claim C4 as amended: the breaker is rebuilt on every configuration
reload, not only when the configuration differs — a reload always publishes
the new configuration and installs the breaker `setupBreaker` builds from
it, discarding all prior breaker state (the fresh breaker is closed with a
zero consecutive count or an empty sampling window); in particular a reload
with an identical configuration also resets the counters. -/
theorem reload_always_rebuilds_breaker (st : ServiceState)
    (c : ConfigHandlerService) :
    reloadConfig st c = ⟨c, setupBreaker c⟩ ∧
    (setupBreaker c).circuit = .closed ∧
    (c.breakerType = "consecutive" →
      (setupBreaker c).policy = .consecutive c.consecutiveFailures 0) ∧
    (c.breakerType ≠ "consecutive" →
      (setupBreaker c).policy =
        .sampling c.threshold c.monitorDuration c.minimumRequests []) := by
  refine ⟨rfl, ?_, ?_, ?_⟩
  · by_cases hk : c.breakerType = "consecutive" <;>
      simp [setupBreaker, beq_iff_eq, hk]
  · intro hk
    simp [setupBreaker, beq_iff_eq, hk]
  · intro hk
    simp [setupBreaker, beq_iff_eq, hk]

/-- Witness for C4 (amended): reloading `wCfg` over a dirty opened breaker
installs the fresh closed breaker with a zero count. -/
theorem reload_always_rebuilds_breaker_witness :
    reloadConfig ⟨wCfg, ⟨100, .opened 5, .consecutive 2 2⟩⟩ wCfg =
      ⟨wCfg, setupBreaker wCfg⟩ ∧
    (setupBreaker wCfg).policy = .consecutive 2 0 :=
  ⟨(reload_always_rebuilds_breaker ⟨wCfg, ⟨100, .opened 5, .consecutive 2 2⟩⟩
      wCfg).1,
   (reload_always_rebuilds_breaker ⟨wCfg, ⟨100, .opened 5, .consecutive 2 2⟩⟩
      wCfg).2.2.1 rfl⟩

/-- Claim C5: whenever the downstream GET resolves strictly within
`timeoutDuration` and the breaker does not reject the call, `handleRequest`
resolves with the success object whose `result` field is the downstream
payload unchanged. -/
theorem timely_success_returns_payload (cfg : ConfigHandlerService)
    (st : Breaker) (now : Nat) (url : String) (mon : Bool)
    (resp : HttpResponse) (latency : Nat)
    (hallow : st.rejectsAt now = false)
    (hlat : latency < cfg.timeoutDuration) :
    (handleRequest cfg st now url (.replies latency (.resolved resp))
        mon).value =
      .success "Request to database was successful" resp.data := by
  have h2 : (handleTimeout cfg.timeoutDuration url
      (.replies latency (.resolved resp))).2 = .ok resp.data := by
    simp [handleTimeout, sendRequest, hlat]
  obtain ⟨rd, circ, p⟩ := st
  cases circ with
  | closed => simp [handleRequest, Breaker.execute, h2]
  | halfOpen => simp [handleRequest, Breaker.execute, Breaker.probe, h2]
  | opened openedAt =>
      have hlt : ¬ (now < openedAt + rd) := by
        simpa [Breaker.rejectsAt] using hallow
      simp [handleRequest, Breaker.execute, Breaker.probe, h2, hlt]

/-- Witness for C5: a fresh breaker, a GET resolving after 1ms with status
200 and payload `"payload"`, timeout 50ms. -/
theorem timely_success_returns_payload_witness :
    (handleRequest wCfg (setupBreaker wCfg) 0 "u"
        (.replies 1 (.resolved ⟨200, "payload"⟩)) true).value =
      .success "Request to database was successful" "payload" :=
  timely_success_returns_payload wCfg (setupBreaker wCfg) 0 "u" true
    ⟨200, "payload"⟩ 1 (by decide) (by decide)

/-- Claim C6: whether the monitor is reachable changes nothing but the
console line printed by `sendError`'s subscription callbacks: the value
`handleRequest` resolves with, the breaker state, whether the downstream
was invoked (so no retry happens), and the events handed to the reporter
are identical with a reachable and an unreachable monitor. -/
theorem monitor_unavailability_is_swallowed (cfg : ConfigHandlerService)
    (st : Breaker) (now : Nat) (url : String) (b : DownstreamBehavior) :
    (handleRequest cfg st now url b true).value =
      (handleRequest cfg st now url b false).value ∧
    (handleRequest cfg st now url b true).breaker =
      (handleRequest cfg st now url b false).breaker ∧
    (handleRequest cfg st now url b true).downstreamInvoked =
      (handleRequest cfg st now url b false).downstreamInvoked ∧
    (handleRequest cfg st now url b true).monitorPosts =
      (handleRequest cfg st now url b false).monitorPosts := by
  rcases hres : (st.execute now
      (handleTimeout cfg.timeoutDuration url b).2).2.1 with d | _ | _ | m <;>
    simp [handleRequest, hres]

/-- Claim C7: every event handed to the reporter is a `LogMessageFormat`
object — exactly the fields `{type, time, message, source, detector, data}`,
by the definition of the structure — whose type is one of `CB_OPEN`,
`TIMEOUT`, `ERROR`, stamped with the call time and the fixed
source/detector strings. -/
theorem reported_events_are_well_formed (cfg : ConfigHandlerService)
    (st : Breaker) (now : Nat) (url : String) (b : DownstreamBehavior)
    (mon : Bool) :
    ((handleRequest cfg st now url b mon).monitorPosts).all
      (eventWellFormed now) = true := by
  rcases hres : (st.execute now
      (handleTimeout cfg.timeoutDuration url b).2).2.1 with d | _ | _ | m <;>
    simp [handleRequest, hres, eventWellFormed, cbOpenLog, timeoutLog,
      errorLog]

/-- Claim C8: whenever `handleRequest` produces a `CB_OPEN` failure event,
its `data` is always `{openTime: resetDuration,
failedResponses: consecutiveFailures}` read from the config handler —
whatever `breakerType` is configured, including when the active breaker is
the sampling breaker. -/
theorem cb_open_event_reports_consecutive_config
    (cfg : ConfigHandlerService) (st : Breaker) (now : Nat) (url : String)
    (b : DownstreamBehavior) (mon : Bool) (log : LogMessageFormat)
    (hlog : (handleRequest cfg st now url b mon).value = .failureLog log)
    (htype : log.type = .CB_OPEN) :
    log.data = .cbOpen cfg.resetDuration cfg.consecutiveFailures := by
  rcases hres : (st.execute now
      (handleTimeout cfg.timeoutDuration url b).2).2.1 with d | _ | _ | m
  · simp [handleRequest, hres] at hlog
  · simp [handleRequest, hres] at hlog
    subst hlog
    rfl
  · simp [handleRequest, hres] at hlog
    subst hlog
    simp [timeoutLog] at htype
  · simp [handleRequest, hres] at hlog
    subst hlog
    simp [errorLog] at htype

/-- Witness for C8: the configured breaker type is `'sampling'` and the
active breaker is an open sampling breaker, yet the `CB_OPEN` event data
still reports `resetDuration` 100 and `consecutiveFailures` 3. -/
theorem cb_open_event_reports_consecutive_config_witness :
    (cbOpenLog sCfg 10).data = .cbOpen 100 3 :=
  cb_open_event_reports_consecutive_config sCfg wOpenSamplingBreaker 10 "u"
    .hangs true (cbOpenLog sCfg 10) (by decide) (by decide)

/-- Claim C9: on every failed call the value `handleRequest` resolves with
is exactly the log object posted to the monitor — the list of events handed
to the reporter is `[log]` for that very log, and `sendError` returns its
argument unchanged. -/
theorem failure_value_is_the_reported_event (cfg : ConfigHandlerService)
    (st : Breaker) (now : Nat) (url : String) (b : DownstreamBehavior)
    (mon : Bool) (log : LogMessageFormat)
    (hlog : (handleRequest cfg st now url b mon).value = .failureLog log) :
    (handleRequest cfg st now url b mon).monitorPosts = [log] ∧
    (sendError mon cfg.monitorUrl log).2 = log := by
  refine ⟨?_, sendError_snd mon cfg.monitorUrl log⟩
  rcases hres : (st.execute now
      (handleTimeout cfg.timeoutDuration url b).2).2.1 with d | _ | _ | m
  · simp [handleRequest, hres] at hlog
  · simp [handleRequest, hres] at hlog ⊢
    exact hlog
  · simp [handleRequest, hres] at hlog ⊢
    exact hlog
  · simp [handleRequest, hres] at hlog ⊢
    exact hlog

/-- Witness for C9: a hanging call times out; the resolved value and the
single reported event are the same `TIMEOUT` log object. -/
theorem failure_value_is_the_reported_event_witness :
    (handleRequest wCfg (setupBreaker wCfg) 0 "u" .hangs true).monitorPosts
      = [timeoutLog wCfg 0] ∧
    (sendError true "m" (timeoutLog wCfg 0)).2 = timeoutLog wCfg 0 :=
  failure_value_is_the_reported_event wCfg (setupBreaker wCfg) 0 "u" .hangs
    true (timeoutLog wCfg 0) (by decide)

/-- Claim C10: `sendRequest` resolves with `send.data` whenever the HTTP
promise resolves, whatever the status code — the `status == 200` check only
decides the console line — and a rejected promise is the only way an
attempted call is classified as a downstream error: within the deadline the
timeout wrapper turns a resolved response of any status into a success and
a rejection into the propagated error. -/
theorem sendRequest_ignores_status_code (url m : String)
    (resp : HttpResponse) :
    (sendRequest url (.resolved resp)).2 = .ok resp.data ∧
    (sendRequest url (.rejected m)).2 = .error m ∧
    (sendRequest url (.resolved resp)).1 =
      (if resp.status == 200 then ["Request to " ++ url ++ " was successful"]
       else []) ∧
    (∀ t lat, lat < t →
      (handleTimeout t url (.replies lat (.resolved resp))).2 =
        .ok resp.data) ∧
    (∀ t lat, lat < t →
      (handleTimeout t url (.replies lat (.rejected m))).2 = .errored m) := by
  refine ⟨rfl, rfl, rfl, ?_, ?_⟩
  · intro t lat hlt
    simp [handleTimeout, sendRequest, hlt]
  · intro t lat hlt
    simp [handleTimeout, sendRequest, hlt]

/-- Witness for C10: a status-500 response that resolves still yields the
payload, both from `sendRequest` and through the timeout wrapper. -/
theorem sendRequest_ignores_status_code_witness :
    (sendRequest "u" (.resolved ⟨500, "d"⟩)).2 = .ok "d" ∧
    (handleTimeout 50 "u" (.replies 1 (.resolved ⟨500, "d"⟩))).2 =
      .ok "d" :=
  ⟨(sendRequest_ignores_status_code "u" "boom" ⟨500, "d"⟩).1,
   (sendRequest_ignores_status_code "u" "boom" ⟨500, "d"⟩).2.2.2.1 50 1
     (by decide)⟩

end PriceService
